import Mathlib

/-!
# Verification of `squabble/__main__.py`

A shallow embedding of the CLI orchestration module of the `squabble`
SQL linter.  The module under study is `src/squabble/__main__.py`; the
collaborator modules (`squabble.config`, `squabble.lint`,
`squabble.rule`, `squabble.reporter`) and the standard-library services
(`os.path`, `glob`) are not part of the source tree, so they are
represented as components of an abstract environment `Env`, quantified
over in every theorem; where a claim hinges on one of those collaborators
the corresponding definition is modelled from the spec and documented as
such.

The embedding makes the control flow of `main` explicit: a run produces
an exit status, a trace of the externally observable steps (configuration
resolution, registry loading, per-file linting, reporting, the
introspection printouts) and the aggregate issue list.  `sys.exit(msg)`
exits with status 1; falling off the end of `main` exits with status 0.
-/

namespace Squabble

/-- An issue (finding) as produced by `lint.check_file`: rule name, file,
severity and message.  Immutable record, per the data model. -/
structure Issue where
  ruleName : String
  fileName : String
  severity : String
  message : String
deriving DecidableEq, Repr

/-- The slice of a resolved configuration that `main` itself inspects:
the plugin source list (passed to `rule.load_rules`) and the selected
reporter identifier (passed to `reporter.report`). -/
structure Config where
  plugins : List String
  reporter : String
deriving DecidableEq, Repr

/-- Rule metadata as returned by `rule.Registry.get_meta`. -/
structure RuleMeta where
  name : String
  description : String
  help : String
deriving DecidableEq, Repr

/-- The docopt argument record consumed by `main`.  `none` for an option
means the flag was absent; docopt can also yield an empty string, which
Python truthiness treats as absent. -/
structure Args where
  paths : List String
  configOpt : Option String
  preset : Option String
  listPresets : Bool
  listRules : Bool
  showRule : Option String
  verbose : Bool

/-- The external collaborators of `__main__.py`, as pure operations.
`pathExists`, `isDir` and `expanduser` stand for the `os.path` queries;
`fsFiles` is the set of regular files of the filesystem, used by the
model of `glob`.  The `squabble.config`, `squabble.lint` and
`squabble.rule` operations are absent from the source tree and are
therefore arbitrary functions here: every theorem quantifying over `Env`
holds for any behaviour of theirs. -/
structure Env where
  pathExists : String → Bool
  isDir : String → Bool
  expanduser : String → String
  fsFiles : List String
  discoverConfigLocation : Option String
  loadConfig : Option String → Option String → Config
  applyFileConfig : Config → String → Config
  checkFile : Config → String → List Issue
  getMeta : String → Option RuleMeta

/-- Python truthiness of an optional string: `None` and `''` are falsy. -/
def pyTruthy : Option String → Bool
  | none => false
  | some s => s ≠ ""

/-- Python `a or b` on optional strings, as in
`args['--config'] or config.discover_config_location()`. -/
def pyOr (a b : Option String) : Option String :=
  if pyTruthy a then a else b

/-- Modelled from the spec: `glob.iglob(os.path.join(dir, '**/*.sql'),
recursive=True)` — the recursive expansion of a directory to the files
beneath it carrying the `.sql` suffix ("directories are recursively
expanded to files matching a fixed suffix convention"). -/
def globSql (fsFiles : List String) (dir : String) : List String :=
  fsFiles.filter (fun f =>
    (dir ++ "/").data.isPrefixOf f.data && ".sql".data.isSuffixOf f.data)

/-- The loop body of `collect_files`: paths are user-expanded; a missing
path aborts with `sys.exit` (modelled as `Except.error` carrying the
message); a directory contributes its recursive `.sql` glob; any other
existing path is appended itself. -/
def collectGo (env : Env) : List String → List String → Except String (List String)
  | [], acc => .ok acc
  | p :: rest, acc =>
    let q := env.expanduser p
    if !env.pathExists q then
      .error (q ++ ": no such file or directory")
    else if env.isDir q then
      collectGo env rest (acc ++ globSql env.fsFiles q)
    else
      collectGo env rest (acc ++ [q])

/-- `collect_files(paths)` from `__main__.py`. -/
def collect_files (env : Env) (paths : List String) : Except String (List String) :=
  collectGo env paths []

/-- `lint_file(base_config, file_name)` from `__main__.py`: derive the
file-scoped configuration from the base and run the linter on it. -/
def lint_file (env : Env) (base : Config) (file : String) : List Issue :=
  env.checkFile (env.applyFileConfig base file) file

/-- The accumulation loop of `main`:
`issues = []; for file_name in files: issues += lint_file(base_config, file_name)`. -/
def lintAll (env : Env) (base : Config) (files : List String) : List Issue :=
  files.foldl (fun acc f => acc ++ lint_file env base f) []

/-- The externally observable steps of one run, in order of occurrence. -/
inductive Event where
  | listPresetsPrinted
  | configResolved
  | rulesLoaded
  | listRulesPrinted
  | ruleShown (name : String)
  | fileLinted (name : String)
  | reported
deriving DecidableEq, Repr

/-- Outcome of one run of `main`: the process exit status, the ordered
trace of observable steps, the aggregate issue list (empty when the run
never reaches linting), and the process-wide base configuration
(`none` when the run exits before `config.load_config` is called). -/
structure RunResult where
  exitCode : Nat
  trace : List Event
  issues : List Issue
  baseConfig : Option Config
deriving DecidableEq, Repr

/-- The guard `if config_file and not os.path.exists(config_file)` of
`main`, deciding the fatal missing-configuration exit. -/
def configCheckFails (env : Env) (args : Args) : Bool :=
  let cf := pyOr args.configOpt env.discoverConfigLocation
  pyTruthy cf && !env.pathExists (cf.getD "")

/-- `main()` from `__main__.py`, one branch per source line:
`--list-presets` returns at once; then the configuration file is
resolved and its existence checked (`sys.exit` on failure); then
`config.load_config` and `rule.load_rules` run; then `--list-rules` and
`--show-rule` return; otherwise files are collected (`sys.exit` inside
on a missing path), each is linted against the one base configuration,
the reporter is invoked, and the exit status is 1 exactly when the
aggregate issue list is non-empty. -/
def mainRun (env : Env) (args : Args) : RunResult :=
  if args.listPresets then
    { exitCode := 0, trace := [.listPresetsPrinted], issues := [], baseConfig := none }
  else if configCheckFails env args then
    { exitCode := 1, trace := [], issues := [], baseConfig := none }
  else
    let config_file := pyOr args.configOpt env.discoverConfigLocation
    let base_config := env.loadConfig config_file args.preset
    let setup : List Event := [.configResolved, .rulesLoaded]
    if args.listRules then
      { exitCode := 0, trace := setup ++ [.listRulesPrinted], issues := []
        baseConfig := some base_config }
    else if pyTruthy args.showRule then
      match env.getMeta (args.showRule.getD "") with
      | none =>
        { exitCode := 1, trace := setup, issues := [], baseConfig := some base_config }
      | some _ =>
        { exitCode := 0
          trace := setup ++ [.ruleShown (args.showRule.getD "")]
          issues := []
          baseConfig := some base_config }
    else
      match collect_files env args.paths with
      | .error _ =>
        { exitCode := 1, trace := setup, issues := [], baseConfig := some base_config }
      | .ok files =>
        let issues := lintAll env base_config files
        { exitCode := if issues.isEmpty then 0 else 1
          trace := setup ++ files.map .fileLinted ++ [.reported]
          issues := issues
          baseConfig := some base_config }

/-- `e₁` occurs strictly before `e₂` in trace `t`: some occurrence of
`e₂` lies strictly after the first occurrence of `e₁`. -/
def occursBefore (t : List Event) (e₁ e₂ : Event) : Bool :=
  ((t.dropWhile (· ≠ e₁)).drop 1).contains e₂

/-- The per-path contribution of `collect_files` when the (expanded)
path exists: a directory contributes its recursive `.sql` glob, any
other path contributes its expanded self. -/
def collectedFor (env : Env) (p : String) : List String :=
  let q := env.expanduser p
  if env.isDir q then globSql env.fsFiles q else [q]

/-- A concrete environment used to instantiate the universally
quantified theorems below: a filesystem with one loose SQL file
`a.sql`, a directory `d` holding two SQL files and one text file, a
configuration file `cfg.json`, a user-home path `~/x.sql` expanding to
`/home/u/x.sql` (both of which exist as plain files), one registered rule
`known`, and a linter reporting one issue per file. -/
def env0 : Env :=
  { pathExists := fun p =>
      p = "a.sql" || p = "d" || p = "cfg.json" || p = "/home/u/x.sql" || p = "~/x.sql"
    isDir := fun p => p = "d"
    expanduser := fun p => if p = "~/x.sql" then "/home/u/x.sql" else p
    fsFiles := ["d/one.sql", "d/sub/two.sql", "d/readme.txt", "elsewhere.sql"]
    discoverConfigLocation := none
    loadConfig := fun _ _ => { plugins := [], reporter := "plain" }
    applyFileConfig := fun c _ => c
    checkFile := fun _ f => [⟨"r1", f, "high", "found"⟩]
    getMeta := fun n => if n = "known" then some ⟨"known", "desc", "help"⟩ else none }

/-- A concrete argument record: lint the single path `a.sql`, no flags. -/
def args0 : Args :=
  { paths := ["a.sql"], configOpt := none, preset := none
    listPresets := false, listRules := false, showRule := none, verbose := false }

section Lemmas

/-- The append-accumulating fold underlying the issue loop of `main`
produces the in-order concatenation of the per-element results. -/
theorem foldl_append_eq_flatten (g : String → List Issue) (files : List String) :
    ∀ acc : List Issue,
      files.foldl (fun a f => a ++ g f) acc = acc ++ (files.map g).flatten := by
  induction files with
  | nil => intro acc; simp
  | cons f fs ih =>
    intro acc
    simp only [List.foldl_cons, List.map_cons, List.flatten_cons, ih, List.append_assoc]

/-- If every expanded input path exists, `collectGo` succeeds and
appends each path's contribution in order. -/
theorem collectGo_ok_of_all_exist (env : Env) (paths : List String)
    (h : ∀ p ∈ paths, env.pathExists (env.expanduser p) = true) :
    ∀ acc, collectGo env paths acc = .ok (acc ++ paths.flatMap (collectedFor env)) := by
  induction paths with
  | nil => intro acc; simp [collectGo]
  | cons p rest ih =>
    intro acc
    have hp : env.pathExists (env.expanduser p) = true := h p (List.mem_cons_self p rest)
    have hrest : ∀ q ∈ rest, env.pathExists (env.expanduser q) = true :=
      fun q hq => h q (List.mem_cons_of_mem p hq)
    by_cases hd : env.isDir (env.expanduser p) = true
    · simp [collectGo, hp, hd, ih hrest, collectedFor, List.append_assoc]
    · simp [collectGo, hp, hd, ih hrest, collectedFor, List.append_assoc]

/-- If some expanded input path is missing, `collectGo` aborts with an
error (the model of `sys.exit`). -/
theorem collectGo_error_of_missing (env : Env) (paths : List String)
    (h : ∃ p ∈ paths, env.pathExists (env.expanduser p) = false) :
    ∀ acc, ∃ msg, collectGo env paths acc = .error msg := by
  induction paths with
  | nil => rcases h with ⟨p, hp, _⟩; cases hp
  | cons p rest ih =>
    intro acc
    cases hpe : env.pathExists (env.expanduser p) with
    | false =>
      exact ⟨env.expanduser p ++ ": no such file or directory", by simp [collectGo, hpe]⟩
    | true =>
      have hrest : ∃ q ∈ rest, env.pathExists (env.expanduser q) = false := by
        rcases h with ⟨q, hq, hmiss⟩
        rcases List.mem_cons.mp hq with rfl | hq'
        · rw [hpe] at hmiss; cases hmiss
        · exact ⟨q, hq', hmiss⟩
      by_cases hd : env.isDir (env.expanduser p) = true
      · simpa [collectGo, hpe, hd] using ih hrest _
      · simpa [collectGo, hpe, hd] using ih hrest _

end Lemmas

/-- C2: the run-level issue list built by the loop
`for file_name in files: issues += lint_file(base_config, file_name)`
equals the concatenation, in input-file order, of the per-file issue
sequences returned by `lint_file`, each file's sequence appearing
exactly once. -/
theorem lintAll_eq_flatten_map_lint_file (env : Env) (base : Config) (files : List String) :
    lintAll env base files = (files.map (lint_file env base)).flatten := by
  simpa using foldl_append_eq_flatten (lint_file env base) files []

/-- C10: when `--list-presets` is given, `main` prints the presets and
returns at once with exit status 0: no configuration is resolved
(`baseConfig = none`), no registry is loaded and no file is collected or
linted, whatever the environment — in particular even when `--config`
names a missing file or the paths do not exist. -/
theorem mainRun_listPresets (env : Env) (args : Args) (h : args.listPresets = true) :
    mainRun env args = ⟨0, [.listPresetsPrinted], [], none⟩ := by
  simp [mainRun, h]

/-- Witness for C10: `--list-presets` together with a dangling
`--config` path and a dangling input path still exits 0. -/
theorem mainRun_listPresets_witness :
    mainRun env0
        { args0 with listPresets := true, configOpt := some "missing", paths := ["nope"] }
      = ⟨0, [.listPresetsPrinted], [], none⟩ :=
  mainRun_listPresets _ _ rfl

/-- C1: in every run that reaches linting (observable as the reporter
being invoked, which only happens after the per-file loop), the exit
status is 1 exactly when the aggregate issue list is non-empty and 0
when it is empty — the issues' severities play no role. -/
theorem mainRun_exitCode_eq_issue_test (env : Env) (args : Args)
    (h : Event.reported ∈ (mainRun env args).trace) :
    (mainRun env args).exitCode = if (mainRun env args).issues = [] then 0 else 1 := by
  by_cases h1 : args.listPresets = true
  · simp [mainRun, h1] at h
  · by_cases h2 : configCheckFails env args = true
    · simp [mainRun, h1, h2] at h
    · by_cases h3 : args.listRules = true
      · simp [mainRun, h1, h2, h3] at h
      · by_cases h4 : pyTruthy args.showRule = true
        · cases hm : env.getMeta (args.showRule.getD "") with
          | none => simp [mainRun, h1, h2, h3, h4, hm] at h
          | some m => simp [mainRun, h1, h2, h3, h4, hm] at h
        · cases hc : collect_files env args.paths with
          | error msg => simp [mainRun, h1, h2, h3, h4, hc] at h
          | ok files =>
            simp [mainRun, h1, h2, h3, h4, hc, List.isEmpty_iff]

/-- Witness for C1: a run over `a.sql` reaches the reporter and exits
with the emptiness test of its issue list. -/
theorem mainRun_exitCode_eq_issue_test_witness :
    (mainRun env0 args0).exitCode = if (mainRun env0 args0).issues = [] then 0 else 1 :=
  mainRun_exitCode_eq_issue_test env0 args0 (by decide)

/-- C3: (a) a non-empty `--config` path that does not exist aborts the
run with status 1 before anything is resolved, collected or linted (the
trace is empty and no base configuration is built); (b) when no
`--config` is given and no implicit configuration location is
discovered, this is not an error: the run resolves the base
configuration from `load_config(None, preset)` — defaults and preset
alone — and proceeds. -/
theorem config_resolution_policy :
    (∀ (env : Env) (args : Args) (p : String),
        args.listPresets = false → args.configOpt = some p → p ≠ "" →
        env.pathExists p = false →
        mainRun env args = ⟨1, [], [], none⟩) ∧
    (∀ (env : Env) (args : Args),
        args.listPresets = false → args.configOpt = none →
        env.discoverConfigLocation = none →
        (mainRun env args).trace.head? = some .configResolved ∧
        (mainRun env args).baseConfig = some (env.loadConfig none args.preset)) := by
  constructor
  · intro env args p h1 hco hne hex
    have h2 : configCheckFails env args = true := by
      simp [configCheckFails, pyOr, pyTruthy, hco, hne, hex]
    simp [mainRun, h1, h2]
  · intro env args h1 hco hd
    have h2 : configCheckFails env args = false := by
      simp [configCheckFails, pyOr, pyTruthy, hco, hd]
    have hcf : pyOr args.configOpt env.discoverConfigLocation = none := by
      simp [pyOr, pyTruthy, hco, hd]
    by_cases h3 : args.listRules = true
    · simp [mainRun, h1, h2, h3, hcf]
    · by_cases h4 : pyTruthy args.showRule = true
      · cases hm : env.getMeta (args.showRule.getD "") with
        | none => simp [mainRun, h1, h2, h3, h4, hm, hcf]
        | some m => simp [mainRun, h1, h2, h3, h4, hm, hcf]
      · cases hc : collect_files env args.paths with
        | error msg => simp [mainRun, h1, h2, h3, h4, hc, hcf]
        | ok files => simp [mainRun, h1, h2, h3, h4, hc, hcf]

/-- Witness for C3: a dangling `--config missing` aborts with status 1
and an empty trace; with no configuration source at all, `a.sql` is
still processed, the head of the trace being the resolution step. -/
theorem config_resolution_policy_witness :
    mainRun env0 { args0 with configOpt := some "missing" } = ⟨1, [], [], none⟩ ∧
    (mainRun env0 args0).trace.head? = some .configResolved :=
  ⟨config_resolution_policy.1 env0 { args0 with configOpt := some "missing" } "missing"
      rfl rfl (by decide) (by decide),
   (config_resolution_policy.2 env0 args0 rfl rfl rfl).1⟩

/-- C6: if any input path is missing (after user-home expansion) in a
run that reaches file collection, the run aborts with exit status 1 at
the collection step: the trace ends with registry loading, no file is
linted and no issue is produced. -/
theorem mainRun_missing_path (env : Env) (args : Args)
    (h1 : args.listPresets = false) (h2 : configCheckFails env args = false)
    (h3 : args.listRules = false) (h4 : pyTruthy args.showRule = false)
    (h5 : ∃ p ∈ args.paths, env.pathExists (env.expanduser p) = false) :
    (mainRun env args).exitCode = 1 ∧
    (mainRun env args).trace = [.configResolved, .rulesLoaded] ∧
    (∀ f, Event.fileLinted f ∉ (mainRun env args).trace) ∧
    (mainRun env args).issues = [] := by
  obtain ⟨msg, hmsg⟩ := collectGo_error_of_missing env args.paths h5 []
  have hc : collect_files env args.paths = .error msg := hmsg
  simp [mainRun, h1, h2, h3, h4, hc]

/-- Witness for C6: the path list `["nope", "a.sql"]` with `nope`
missing aborts collection with status 1 and no linted file. -/
theorem mainRun_missing_path_witness :
    (mainRun env0 { args0 with paths := ["nope", "a.sql"] }).exitCode = 1 ∧
    (mainRun env0 { args0 with paths := ["nope", "a.sql"] }).trace
      = [.configResolved, .rulesLoaded] ∧
    (∀ f, Event.fileLinted f ∉ (mainRun env0 { args0 with paths := ["nope", "a.sql"] }).trace) ∧
    (mainRun env0 { args0 with paths := ["nope", "a.sql"] }).issues = [] :=
  mainRun_missing_path env0 { args0 with paths := ["nope", "a.sql"] }
    rfl (by decide) rfl rfl (by decide)

/-- C9: requesting `--show-rule` for a name absent from the registry
(`Registry.get_meta` modelled from the spec as returning nothing for an
unregistered name) exits with status 1; no rule metadata is printed and
nothing is linted — the lookup never silently yields a default. -/
theorem show_rule_unknown (env : Env) (args : Args) (n : String)
    (h1 : args.listPresets = false) (h2 : configCheckFails env args = false)
    (h3 : args.listRules = false) (h4 : args.showRule = some n) (h5 : n ≠ "")
    (h6 : env.getMeta n = none) :
    (mainRun env args).exitCode = 1 ∧
    (∀ m, Event.ruleShown m ∉ (mainRun env args).trace) ∧
    (mainRun env args).trace = [.configResolved, .rulesLoaded] := by
  have h4' : pyTruthy args.showRule = true := by simp [pyTruthy, h4, h5]
  have hget : args.showRule.getD "" = n := by simp [h4]
  simp [mainRun, h1, h2, h3, h4', hget, h6]

/-- Witness for C9: `--show-rule nope` against a registry holding only
`known` exits with status 1 and prints no rule. -/
theorem show_rule_unknown_witness :
    (mainRun env0 { args0 with showRule := some "nope" }).exitCode = 1 ∧
    (∀ m, Event.ruleShown m ∉ (mainRun env0 { args0 with showRule := some "nope" }).trace) ∧
    (mainRun env0 { args0 with showRule := some "nope" }).trace
      = [.configResolved, .rulesLoaded] :=
  show_rule_unknown env0 { args0 with showRule := some "nope" } "nope"
    rfl (by decide) rfl rfl (by decide) (by decide)

/-- C8: in a run that reaches linting, one base configuration —
`load_config(config_file, preset)`, built once — is recorded for the
whole process, and every file's issues come from a configuration derived
from that same base by `apply_file_config` (modelled from the spec as a
pure derivation: it returns a new configuration and cannot mutate
`base`). The same `base` value appears in the derivation for every
file. -/
theorem same_base_for_every_file (env : Env) (args : Args) (files : List String)
    (h1 : args.listPresets = false) (h2 : configCheckFails env args = false)
    (h3 : args.listRules = false) (h4 : pyTruthy args.showRule = false)
    (h5 : collect_files env args.paths = .ok files) :
    (mainRun env args).baseConfig =
      some (env.loadConfig (pyOr args.configOpt env.discoverConfigLocation) args.preset) ∧
    (mainRun env args).issues =
      (files.map (fun f =>
        env.checkFile
          (env.applyFileConfig
            (env.loadConfig (pyOr args.configOpt env.discoverConfigLocation) args.preset) f)
          f)).flatten := by
  have hl := foldl_append_eq_flatten
    (lint_file env (env.loadConfig (pyOr args.configOpt env.discoverConfigLocation) args.preset))
    files []
  constructor
  · simp [mainRun, h1, h2, h3, h4, h5]
  · simp only [mainRun, h1, h2, h3, h4, h5, Bool.false_eq_true, if_false]
    simpa [lintAll, lint_file] using hl

/-- Witness for C8: the run over the directory `d` lints both of its
SQL files against configurations derived from the one base. -/
theorem same_base_for_every_file_witness :
    (mainRun env0 { args0 with paths := ["d"] }).baseConfig =
      some (env0.loadConfig (pyOr none env0.discoverConfigLocation) none) ∧
    (mainRun env0 { args0 with paths := ["d"] }).issues =
      (["d/one.sql", "d/sub/two.sql"].map (fun f =>
        env0.checkFile
          (env0.applyFileConfig (env0.loadConfig (pyOr none env0.discoverConfigLocation) none) f)
          f)).flatten :=
  same_base_for_every_file env0 { args0 with paths := ["d"] } ["d/one.sql", "d/sub/two.sql"]
    rfl (by decide) rfl rfl rfl

/-- C5: in every run the registry-loading step happens at most once,
and whenever some file is linted it has happened exactly once, strictly
before that file's linting step — registration never occurs during or
after linting. -/
theorem registry_loaded_once_before_lint (env : Env) (args : Args) :
    (mainRun env args).trace.count .rulesLoaded ≤ 1 ∧
    ∀ f, Event.fileLinted f ∈ (mainRun env args).trace →
      (mainRun env args).trace.count .rulesLoaded = 1 ∧
      occursBefore (mainRun env args).trace .rulesLoaded (.fileLinted f) = true := by
  by_cases h1 : args.listPresets = true
  · simp [mainRun, h1]
  · by_cases h2 : configCheckFails env args = true
    · simp [mainRun, h1, h2]
    · by_cases h3 : args.listRules = true
      · simp [mainRun, h1, h2, h3]
      · by_cases h4 : pyTruthy args.showRule = true
        · cases hm : env.getMeta (args.showRule.getD "") with
          | none => simp [mainRun, h1, h2, h3, h4, hm]
          | some m => simp [mainRun, h1, h2, h3, h4, hm]
        · cases hc : collect_files env args.paths with
          | error msg => simp [mainRun, h1, h2, h3, h4, hc]
          | ok files =>
            have hcount : (files.map Event.fileLinted).count Event.rulesLoaded = 0 :=
              List.count_eq_zero.mpr (by simp)
            constructor
            · simp [mainRun, h1, h2, h3, h4, hc, List.count_append, List.count_cons, hcount]
            · intro f hf
              simp only [mainRun, h1, h2, h3, h4, hc] at hf ⊢
              refine ⟨?_, ?_⟩
              · simp [List.count_append, List.count_cons, hcount]
              · have hfm : f ∈ files := by simpa using hf
                simp [occursBefore, List.dropWhile, hfm]

/-- Witness for C5: the run over `a.sql` loads the registry exactly
once, before `a.sql` is linted. -/
theorem registry_loaded_once_before_lint_witness :
    (mainRun env0 args0).trace.count .rulesLoaded = 1 ∧
    occursBefore (mainRun env0 args0).trace .rulesLoaded (.fileLinted "a.sql") = true :=
  (registry_loaded_once_before_lint env0 args0).2 "a.sql" (by decide)

/-- Counterexample to C4 as stated: in the concrete run over `a.sql`
both the configuration-resolution and the registry-loading step occur,
yet registry loading does NOT precede configuration resolution — the
code must resolve the configuration first, since the plugin list handed
to `rule.load_rules` comes out of the resolved configuration. -/
theorem registry_before_config_cex :
    Event.rulesLoaded ∈ (mainRun env0 args0).trace ∧
    Event.configResolved ∈ (mainRun env0 args0).trace ∧
    occursBefore (mainRun env0 args0).trace .rulesLoaded .configResolved = false := by
  decide

/-- C4 (amended): in every run in which the registry is loaded, the
base configuration is resolved strictly before the registry is loaded,
and per-file processing comes only after registry loading. -/
theorem config_resolved_then_rules_loaded (env : Env) (args : Args)
    (h : Event.rulesLoaded ∈ (mainRun env args).trace) :
    occursBefore (mainRun env args).trace .configResolved .rulesLoaded = true ∧
    ∀ f, Event.fileLinted f ∈ (mainRun env args).trace →
      occursBefore (mainRun env args).trace .rulesLoaded (.fileLinted f) = true := by
  by_cases h1 : args.listPresets = true
  · simp [mainRun, h1] at h
  · by_cases h2 : configCheckFails env args = true
    · simp [mainRun, h1, h2] at h
    · by_cases h3 : args.listRules = true
      · simp [mainRun, h1, h2, h3, occursBefore, List.dropWhile]
      · by_cases h4 : pyTruthy args.showRule = true
        · cases hm : env.getMeta (args.showRule.getD "") with
          | none => simp [mainRun, h1, h2, h3, h4, hm, occursBefore, List.dropWhile]
          | some m => simp [mainRun, h1, h2, h3, h4, hm, occursBefore, List.dropWhile]
        · cases hc : collect_files env args.paths with
          | error msg => simp [mainRun, h1, h2, h3, h4, hc, occursBefore, List.dropWhile]
          | ok files =>
            constructor
            · simp [mainRun, h1, h2, h3, h4, hc, occursBefore, List.dropWhile]
            · intro f hf
              simp only [mainRun, h1, h2, h3, h4, hc] at hf ⊢
              have hfm : f ∈ files := by simpa using hf
              simp [occursBefore, List.dropWhile, hfm]

/-- Witness for the amended C4: the run over `a.sql` resolves its
configuration before loading the registry, and lints only after. -/
theorem config_resolved_then_rules_loaded_witness :
    occursBefore (mainRun env0 args0).trace .configResolved .rulesLoaded = true ∧
    ∀ f, Event.fileLinted f ∈ (mainRun env0 args0).trace →
      occursBefore (mainRun env0 args0).trace .rulesLoaded (.fileLinted f) = true :=
  config_resolved_then_rules_loaded env0 args0 (by decide)

/-- Counterexample to C7 as stated: the path `~/x.sql` exists, is not a
directory, and collection succeeds — but the collected list holds the
user-home-expanded `/home/u/x.sql`, not the path `~/x.sql` as given. -/
theorem collect_as_given_cex :
    env0.pathExists "~/x.sql" = true ∧ env0.isDir "~/x.sql" = false ∧
    collect_files env0 ["~/x.sql"] = .ok ["/home/u/x.sql"] ∧
    "~/x.sql" ∉ ["/home/u/x.sql"] :=
  ⟨by decide, by decide, rfl, by decide⟩

/-- C7 (amended): when every expanded input path exists, collection
returns, in input order, for each directory path exactly the
filesystem's files lying under it (path-prefix) and carrying the `.sql`
suffix, and for each non-directory path its user-home-expanded self. -/
theorem collect_files_spec (env : Env) (paths : List String)
    (h : ∀ p ∈ paths, env.pathExists (env.expanduser p) = true) :
    collect_files env paths = .ok (paths.flatMap (collectedFor env)) ∧
    ∀ dir f, f ∈ globSql env.fsFiles dir ↔
      f ∈ env.fsFiles ∧
        (dir ++ "/").data.isPrefixOf f.data = true ∧
        ".sql".data.isSuffixOf f.data = true := by
  constructor
  · simpa [collect_files] using collectGo_ok_of_all_exist env paths h []
  · intro dir f
    simp [globSql, List.mem_filter, and_assoc]

/-- Witness for the amended C7: collecting `["d", "a.sql"]` expands the
directory `d` to its two `.sql` files (skipping `d/readme.txt` and the
unrelated `elsewhere.sql`) and keeps `a.sql` itself. -/
theorem collect_files_spec_witness :
    (∀ p ∈ ["d", "a.sql"], env0.pathExists (env0.expanduser p) = true) ∧
    collect_files env0 ["d", "a.sql"] = .ok (["d", "a.sql"].flatMap (collectedFor env0)) :=
  ⟨by decide, (collect_files_spec env0 ["d", "a.sql"] (by decide)).1⟩

end Squabble
